import Mathlib

/-!
Shallow embedding of `src/process.rs` from rust-psutil: the procfs stat/statm
record decoders, the process-state character codec, the command-line splitter,
the PID/starttime process identity, and the `/proc` enumerator.

Modelling conventions:
  - Rust strings are modelled as Lean `String`/`List Char`; the procfs records
    under consideration are ASCII, so Rust byte indices coincide with character
    indices.
  - A Rust panic (a failed `unwrap()`, an out-of-bounds slice index, or an
    arithmetic-overflow abort of a plain `*`) is modelled as the distinguished
    error constructor `PError.crash`; a `std::io::Error` value returned with
    `Err` is `PError.other` (or `PError.notFound` for `ErrorKind::NotFound`).
  - Rust `f64` CPU-time arithmetic is modelled exactly over `ℚ`; every division
    performed by the decoder at the inputs considered in this file is exact in
    IEEE double precision as well.
  - Plain `u64`/`i64` multiplication is modelled with the overflow check that a
    debug build of the source performs (overflow aborts), while the explicit
    `wrapping_mul` of the source is modelled as multiplication modulo `2^64`.
  - The source unwraps the 50 stat fields one at a time and panics at the
    first failure; the model tests all the field parses with `statOk` and
    crashes when any of them fails, which produces the same success value and
    crashes on exactly the same records.
-/

/-- Errors produced by the decoders: `crash` models a Rust panic, `other` an
`io::Error` with `ErrorKind::Other`, `notFound` a missing procfs entry. -/
inductive PError where
  | crash (msg : String)
  | other (msg : String)
  | notFound
deriving DecidableEq

/-- Models `Option::unwrap`: a `None` aborts the program. -/
def optUnwrap {α : Type} (o : Option α) : Except PError α :=
  match o with
  | some a => .ok a
  | none => .error (.crash "called Option.unwrap on a None value")

/-- Is the computation a success? -/
def isOkE {α : Type} (e : Except PError α) : Bool :=
  match e with
  | .ok _ => true
  | .error _ => false

/-- The error of a failed computation, if any. -/
def errOf {α : Type} (e : Except PError α) : Option PError :=
  match e with
  | .ok _ => none
  | .error x => some x

/-- Converts a fallible result to an Option, forgetting the error. -/
def exceptToOption {α : Type} (e : Except PError α) : Option α :=
  match e with
  | .ok a => some a
  | .error _ => none

/-- Index of the first occurrence of `c` (Rust `str::find` on an ASCII string). -/
def findIdxOf (c : Char) (l : List Char) : Option Nat :=
  List.findIdx? (fun x => x = c) l

/-- Index of the last occurrence of `c` (Rust `str::rfind` on an ASCII string). -/
def rfindIdxOf (c : Char) (l : List Char) : Option Nat :=
  match List.findIdx? (fun x => x = c) l.reverse with
  | none => none
  | some i => some (l.length - 1 - i)

/-- Rust `s.splitn(2, sep)`: the chunk before the first separator, and the
remainder after it when the separator occurs at all. -/
def splitn2 (l : List Char) (sep : Char) : List Char × Option (List Char) :=
  match findIdxOf sep l with
  | none => (l, none)
  | some i => (l.take i, some (l.drop (i + 1)))

/-- Character split at every position satisfying `p`, keeping empty chunks
between, before and after separators (the behavior of Rust `str::split`). -/
def splitOnPred (p : Char → Bool) : List Char → List (List Char)
  | [] => [[]]
  | c :: rest =>
    if p c then [] :: splitOnPred p rest
    else
      match splitOnPred p rest with
      | [] => [[c]]
      | h :: t => (c :: h) :: t

/-- Rust `s.split(sep)` for a single-character pattern. -/
def splitOnChar (sep : Char) (l : List Char) : List (List Char) :=
  splitOnPred (fun c => c = sep) l

/-- Rust `str::trim_right`: remove trailing whitespace. -/
def trimRight (l : List Char) : List Char :=
  (l.reverse.dropWhile (fun c => c.isWhitespace)).reverse

/-- Rust `str::split_terminator`: like `split`, but the single empty chunk
produced by a trailing terminator is dropped. -/
def splitTerminator (p : Char → Bool) (l : List Char) : List (List Char) :=
  let parts := splitOnPred p l
  if parts.getLast? = some [] then parts.dropLast else parts

/-- Digit-string value: `some` exactly when the string is a non-empty run of
decimal digits. -/
def digitsToNat? (l : List Char) : Option Nat :=
  if l.isEmpty then none
  else if l.all (fun c => c.isDigit) then
    some (l.foldl (fun acc c => acc * 10 + (c.toNat - 48)) 0)
  else none

/-- Rust unsigned `FromStr` before the range check: an optional leading `+`
followed by at least one digit. -/
def parseNatRust (l : List Char) : Option Nat :=
  match l with
  | '+' :: rest => digitsToNat? rest
  | _ => digitsToNat? l

/-- Rust `uN::from_str`: digits with optional `+`, rejecting values outside
`[0, 2^bits)` (`PosOverflow`). -/
def parseUnsigned (bits : Nat) (l : List Char) : Option Nat :=
  (parseNatRust l).bind (fun n => if n < 2 ^ bits then some n else none)

/-- Rust `iN::from_str`: optional sign, digits, two's-complement range check. -/
def parseSigned (bits : Nat) (l : List Char) : Option Int :=
  match l with
  | '-' :: rest =>
    (digitsToNat? rest).bind
      (fun n => if n ≤ 2 ^ (bits - 1) then some (-(n : Int)) else none)
  | _ =>
    (parseNatRust l).bind
      (fun n => if n < 2 ^ (bits - 1) then some ((n : Int)) else none)

/-- Debug-build semantics of plain `u64` multiplication: overflow aborts. -/
def u64checkedMul (a b : Nat) : Except PError Nat :=
  if a * b < 2 ^ 64 then .ok (a * b)
  else .error (.crash "attempt to multiply with overflow")

/-- Rust `u64::wrapping_mul`: multiplication truncated to 64 bits. -/
def u64wrappingMul (a b : Nat) : Nat := (a * b) % 2 ^ 64

/-- Debug-build semantics of plain `i64` multiplication: overflow is `none`. -/
def i64checkedMul (a b : Int) : Option Int :=
  if -(2 ^ 63) ≤ a * b ∧ a * b < 2 ^ 63 then some (a * b) else none

/-- The nine process states of `State` in the source. -/
inductive State where
  | Running
  | Sleeping
  | Waiting
  | Stopped
  | Traced
  | Paging
  | Dead
  | Zombie
  | Idle
deriving DecidableEq

/-- Source `State::from_char`: the nine-armed character match (written here as
the equivalent chain of equality tests), with the catch-all producing the
formatted invalid-state error. -/
def State.from_char (state : Char) : Except PError State :=
  if state = 'R' then .ok .Running
  else if state = 'S' then .ok .Sleeping
  else if state = 'D' then .ok .Waiting
  else if state = 'T' then .ok .Stopped
  else if state = 't' then .ok .Traced
  else if state = 'W' then .ok .Paging
  else if state = 'Z' then .ok .Zombie
  else if state = 'X' then .ok .Dead
  else if state = 'I' then .ok .Idle
  else .error (.other ("Invalid state character: " ++ String.mk [state]))

/-- Source `impl FromStr for State`. The guard `!s.len() == 1` applies the
bitwise complement of the 64-bit length (unary `!` on `usize` is bitwise NOT
in Rust and binds tighter than `==`), so the guard fires only when the length
is `2^64 - 2`; otherwise `s.chars().nth(0).unwrap()` is fed to `from_char`,
panicking on the empty string. -/
def State.from_str (s : String) : Except PError State :=
  if (2 ^ 64 - 1) - s.length % 2 ^ 64 = 1 then
    .error (.other "State is not a single character")
  else
    match s.toList with
    | [] => .error (.crash "called Option.unwrap on a None value")
    | c :: _ => State.from_char c

/-- Source `impl ToString for State`. -/
def State.to_string (s : State) : String :=
  match s with
  | .Running => "R"
  | .Sleeping => "S"
  | .Waiting => "D"
  | .Stopped => "T"
  | .Traced => "t"
  | .Paging => "W"
  | .Zombie => "Z"
  | .Dead => "X"
  | .Idle => "I"

/-- The characters accepted by `State::from_char`. -/
def validStateChars : List Char := ['R', 'S', 'D', 'T', 't', 'W', 'Z', 'X', 'I']

/-- Source `struct Memory`, bytes already scaled by the page size. -/
structure Memory where
  size : Nat
  resident : Nat
  share : Nat
  text : Nat
  data : Nat
deriving DecidableEq

/-- Source `Memory::new`, with the statm file content passed in place of the
`procfs(pid, "statm")` read. Every whitespace-trimmed, space-separated field
is parsed as `u64` with `parse().unwrap()` (a failure panics); fields 0-3 are
scaled by the page size with plain multiplication and field 5 (data+stack)
with `wrapping_mul`, the documented kernel-counter-overflow workaround. -/
def Memory.new (page : Nat) (statm : String) : Except PError Memory :=
  match (splitOnChar ' ' (trimRight statm.toList)).mapM
      (fun l => parseUnsigned 64 l) with
  | none => .error (.crash "called Option.unwrap on a None value")
  | some bytes =>
    if 6 ≤ bytes.length then do
      let size ← u64checkedMul (bytes.getD 0 0) page
      let resident ← u64checkedMul (bytes.getD 1 0) page
      let share ← u64checkedMul (bytes.getD 2 0) page
      let text ← u64checkedMul (bytes.getD 3 0) page
      .ok { size := size, resident := resident, share := share, text := text,
            data := u64wrappingMul (bytes.getD 5 0) page }
    else .error (.crash "index out of bounds")

/-- Source `struct Process`. CPU-time fields (`utime`, `stime`, `cutime`,
`cstime`, `guest_time`, `cguest_time`) are `f64` seconds in the source,
modelled exactly over `ℚ`; integer fields keep their source signedness
(`i32`/`u32`/`i64`/`u64` become `Int`/`Nat`). -/
structure Process where
  pid : Int
  uid : Nat
  gid : Nat
  comm : String
  state : State
  ppid : Int
  pgrp : Int
  session : Int
  tty_nr : Int
  tpgid : Int
  flags : Nat
  minflt : Nat
  cminflt : Nat
  majflt : Nat
  cmajflt : Nat
  utime : ℚ
  stime : ℚ
  cutime : ℚ
  cstime : ℚ
  priority : Int
  nice : Int
  num_threads : Int
  starttime : Nat
  vsize : Nat
  rss : Int
  rsslim : Nat
  startcode : Nat
  endcode : Nat
  startstack : Nat
  kstkesp : Nat
  kstkeip : Nat
  wchan : Nat
  exit_signal : Int
  processor : Int
  rt_priority : Nat
  policy : Nat
  delayacct_blkio_ticks : Nat
  guest_time : ℚ
  cguest_time : ℚ
  start_data : Nat
  end_data : Nat
  start_brk : Nat
  arg_start : Nat
  arg_end : Nat
  env_start : Nat
  env_end : Nat
  exit_code : Int

/-- Positional access `stat[i]` into the split field vector. The caller
(`Process::new`) has already checked the vector holds exactly 50 entries, so
the default is never consulted on a reachable path. -/
def fld (f : List String) (i : Nat) : String := f.getD i ""

/-- Field 0 parsed through the `FromStr` instance of `State`, exactly as the
`from_str!` macro does. -/
def stateF (f : List String) : Option State :=
  exceptToOption (State.from_str (fld f 0))

/-- Field `i` parsed as Rust `i32` (`from_str!(stat[i])`). -/
def fI32 (f : List String) (i : Nat) : Option Int := parseSigned 32 (fld f i).toList

/-- Field `i` parsed as Rust `u32` (`from_str!(stat[i])`). -/
def fU32 (f : List String) (i : Nat) : Option Nat := parseUnsigned 32 (fld f i).toList

/-- Field `i` parsed as Rust `u64` (`from_str!(stat[i])`). -/
def fU64 (f : List String) (i : Nat) : Option Nat := parseUnsigned 64 (fld f i).toList

/-- Field `i` parsed as Rust `i64` (`from_str!(stat[i])`). -/
def fI64 (f : List String) (i : Nat) : Option Int := parseSigned 64 (fld f i).toList

/-- Source line 403: `i64::from_str(stat[21]).unwrap() * *PAGE_SIZE as i64`,
the RSS page count scaled to bytes with plain `i64` multiplication. -/
def rssF (page : Nat) (f : List String) : Option Int :=
  (fI64 f 21).bind (fun r => i64checkedMul r (page : Int))

/-- Do all 50 positional parses of `Process::new` (source lines 377-432)
succeed at their declared types? The source unwraps them one at a time in
field order; success of all of them is exactly the absence of a panic. -/
def statOk (page : Nat) (f : List String) : Bool :=
  (stateF f).isSome && (fI32 f 1).isSome && (fI32 f 2).isSome &&
  (fI32 f 3).isSome && (fI32 f 4).isSome && (fI32 f 5).isSome &&
  (fU32 f 6).isSome && (fU64 f 7).isSome && (fU64 f 8).isSome &&
  (fU64 f 9).isSome && (fU64 f 10).isSome && (fU64 f 11).isSome &&
  (fU64 f 12).isSome && (fI64 f 13).isSome && (fI64 f 14).isSome &&
  (fI64 f 15).isSome && (fI64 f 16).isSome && (fI64 f 17).isSome &&
  (fU64 f 19).isSome && (fU64 f 20).isSome && (rssF page f).isSome &&
  (fU64 f 22).isSome && (fU64 f 23).isSome && (fU64 f 24).isSome &&
  (fU64 f 25).isSome && (fU64 f 26).isSome && (fU64 f 27).isSome &&
  (fU64 f 32).isSome && (fI32 f 35).isSome && (fI32 f 36).isSome &&
  (fU32 f 37).isSome && (fU32 f 38).isSome && (fU64 f 39).isSome &&
  (fU64 f 40).isSome && (fI64 f 41).isSome && (fU64 f 42).isSome &&
  (fU64 f 43).isSome && (fU64 f 44).isSome && (fU64 f 45).isSome &&
  (fU64 f 46).isSome && (fU64 f 47).isSome && (fU64 f 48).isSome &&
  (fI32 f 49).isSome

/-- The `Process` record literal of source lines 377-432, field by field: the
six CPU-time fields are divided by `ticks_per_second` with the signedness the
source uses (`u64` for `utime`/`stime`/`guest_time`, `i64` for the three
children fields), `rss` is scaled by the page size, and everything else is the
plain parse of its positional field. Read under `statOk` all the `getD`
defaults are dead. -/
def buildRecord (tps page uid gid : Nat) (pid : Int) (cmd : String)
    (f : List String) : Process :=
  { pid := pid, uid := uid, gid := gid, comm := cmd,
    state := (stateF f).getD .Running,
    ppid := (fI32 f 1).getD 0,
    pgrp := (fI32 f 2).getD 0,
    session := (fI32 f 3).getD 0,
    tty_nr := (fI32 f 4).getD 0,
    tpgid := (fI32 f 5).getD 0,
    flags := (fU32 f 6).getD 0,
    minflt := (fU64 f 7).getD 0,
    cminflt := (fU64 f 8).getD 0,
    majflt := (fU64 f 9).getD 0,
    cmajflt := (fU64 f 10).getD 0,
    utime := ((fU64 f 11).getD 0 : ℚ) / (tps : ℚ),
    stime := ((fU64 f 12).getD 0 : ℚ) / (tps : ℚ),
    cutime := ((fI64 f 13).getD 0 : ℚ) / (tps : ℚ),
    cstime := ((fI64 f 14).getD 0 : ℚ) / (tps : ℚ),
    priority := (fI64 f 15).getD 0,
    nice := (fI64 f 16).getD 0,
    num_threads := (fI64 f 17).getD 0,
    starttime := (fU64 f 19).getD 0,
    vsize := (fU64 f 20).getD 0,
    rss := (rssF page f).getD 0,
    rsslim := (fU64 f 22).getD 0,
    startcode := (fU64 f 23).getD 0,
    endcode := (fU64 f 24).getD 0,
    startstack := (fU64 f 25).getD 0,
    kstkesp := (fU64 f 26).getD 0,
    kstkeip := (fU64 f 27).getD 0,
    wchan := (fU64 f 32).getD 0,
    exit_signal := (fI32 f 35).getD 0,
    processor := (fI32 f 36).getD 0,
    rt_priority := (fU32 f 37).getD 0,
    policy := (fU32 f 38).getD 0,
    delayacct_blkio_ticks := (fU64 f 39).getD 0,
    guest_time := ((fU64 f 40).getD 0 : ℚ) / (tps : ℚ),
    cguest_time := ((fI64 f 41).getD 0 : ℚ) / (tps : ℚ),
    start_data := (fU64 f 42).getD 0,
    end_data := (fU64 f 43).getD 0,
    start_brk := (fU64 f 44).getD 0,
    arg_start := (fU64 f 45).getD 0,
    arg_end := (fU64 f 46).getD 0,
    env_start := (fU64 f 47).getD 0,
    env_end := (fU64 f 48).getD 0,
    exit_code := (fI32 f 49).getD 0 }

/-- The field stage of `Process::new`: every `from_str!(stat[i])` carries an
`unwrap()` (the source's own TODO notes `try!` should be used instead), so any
field failing to parse as its declared type aborts the program. -/
def buildProcess (tps page uid gid : Nat) (pid : Int) (cmd : String)
    (f : List String) : Except PError Process :=
  if statOk page f then .ok (buildRecord tps page uid gid pid cmd f)
  else .error (.crash "called Result.unwrap on an Err value")

/-- Rust slice `l[a..b]`: panics when `a > b` or `b > l.len()`. -/
def sliceE (l : List Char) (a b : Nat) : Except PError (List Char) :=
  if a ≤ b ∧ b ≤ l.length then .ok ((l.take b).drop a)
  else .error (.crash "byte index out of bounds")

/-- Rust slice `l[n..]`: panics when `n > l.len()`. -/
def dropE (l : List Char) (n : Nat) : Except PError (List Char) :=
  if n ≤ l.length then .ok (l.drop n)
  else .error (.crash "byte index out of bounds")

/-- Source `Process::parse_comm`: `s[1..s.len()]`, dropping the first byte
(and panicking on the empty slice, where the range `1..0` is invalid). -/
def parse_comm (s : List Char) : Except PError (List Char) :=
  if 1 ≤ s.length then .ok (s.drop 1)
  else .error (.crash "byte index out of bounds")

/-- The record-shape stage of `Process::new` (source lines 360-369): split the
pid off at the first space and parse it, find the first `(` and the last `)`,
take the command name between them via `parse_comm`, skip the two bytes after
the last `)`, trim and split the remainder on single spaces. Every failure in
this stage is a panic (a failed `unwrap` or an invalid slice). -/
def statRaw (stat : String) : Except PError (Int × String × List String) := do
  let pid ← optUnwrap (parseSigned 32 (splitn2 stat.toList ' ').1)
  let rest ← optUnwrap (splitn2 stat.toList ' ').2
  let so ← optUnwrap (findIdxOf '(' rest)
  let eo ← optUnwrap (rfindIdxOf ')' rest)
  let cmdSlice ← sliceE rest so eo
  let cmd ← parse_comm cmdSlice
  let restAfter ← dropE rest (eo + 2)
  .ok (pid, String.mk cmd,
       (splitOnChar ' ' (trimRight restAfter)).map String.mk)

/-- The structural check of `Process::new` (source lines 371-374): any field
count other than 50 is the unexpected-number-of-fields error. -/
def statParts (stat : String) : Except PError (Int × String × List String) :=
  match statRaw stat with
  | .error e => .error e
  | .ok (pid, cmd, f) =>
    if f.length = 50 then .ok (pid, cmd, f)
    else .error (.other "Unexpected number of fields from /proc/[pid]/stat")

/-- Source `Process::new`, with the stat file content passed in place of the
`procfs(pid, "stat")` read and the directory-metadata uid/gid passed in place
of `fs::metadata`. -/
def Process.new (tps page uid gid : Nat) (stat : String) :
    Except PError Process :=
  match statParts stat with
  | .error e => .error e
  | .ok (pid, cmd, f) => buildProcess tps page uid gid pid cmd f

/-- The text of positional field `i` of a stat record (empty when the record
does not reach the field stage). -/
def statField (stat : String) (i : Nat) : String :=
  match statParts stat with
  | .ok (_, _, f) => fld f i
  | .error _ => ""

/-- Companion definition written from the spec's words (section 4.4 step 2):
after the leading pid field, the command name is everything strictly between
the first opening parenthesis and the last closing parenthesis of the
remainder. -/
def specCommand (stat : String) : Option String :=
  match (splitn2 stat.toList ' ').2 with
  | none => none
  | some rest =>
    match findIdxOf '(' rest, rfindIdxOf ')' rest with
    | some so, some eo =>
      if so < eo then some (String.mk ((rest.take eo).drop (so + 1)))
      else none
    | _, _ => none

/-- Source `Process::cmdline_vec`, with the cmdline file content passed in
place of the `procfs(pid, "cmdline")` read: the empty record is the
distinguished `None`, otherwise the record is split on null/space
terminators. -/
def cmdline_vec (cmdline : String) : Except PError (Option (List String)) :=
  if cmdline = "" then .ok none
  else
    .ok (some ((splitTerminator
      (fun c => c = Char.ofNat 0 || c = ' ') cmdline.toList).map String.mk))

/-- Source `impl PartialEq for Process`: identity is the (pid, starttime)
pair, every other field is ignored. -/
def Process.eq (a b : Process) : Bool :=
  (a.pid == b.pid) && (a.starttime == b.starttime)

/-- The filesystem surface `Process::new` and `all` touch: the `/proc`
directory entry names, and per pid the directory-metadata (uid, gid) pair and
the stat file content; `none` models a process that has vanished. -/
structure ProcFS where
  entries : List String
  meta : Int → Option (Nat × Nat)
  stat : Int → Option String

/-- Source `Process::new` including its two filesystem reads: a vanished
process surfaces as the not-found error of `fs::metadata`/`read_file`. -/
def Process.newFS (tps page : Nat) (fs : ProcFS) (pid : Int) :
    Except PError Process :=
  match fs.meta pid with
  | none => .error .notFound
  | some (uid, gid) =>
    match fs.stat pid with
    | none => .error .notFound
    | some content => Process.new tps page uid gid content

/-- Loop body of source `all` (lines 509-516): entries whose name parses as a
PID are decoded with `Process::new(pid).unwrap()` — the `unwrap` turns any
per-entry decode error into a panic of the whole enumeration. -/
def allGo (tps page : Nat) (fs : ProcFS) :
    List String → List Process → Except PError (List Process)
  | [], acc => .ok acc.reverse
  | name :: rest, acc =>
    match parseSigned 32 name.toList with
    | some pid =>
      match Process.newFS tps page fs pid with
      | .ok p => allGo tps page fs rest (p :: acc)
      | .error _ => .error (.crash "called Result.unwrap on an Err value")
    | none => allGo tps page fs rest acc

/-- Source `all`: fold the entry list through `allGo`. -/
def all (tps page : Nat) (fs : ProcFS) : Except PError (List Process) :=
  allGo tps page fs fs.entries []

/-- A well-formed stat record: pid 1, name `init`, 50 trailing fields with
`utime` (field 11) 250 ticks and `cutime` (field 13) -3 ticks. -/
def exStat : String :=
  "1 (init) R 101 102 103 104 105 106 107 108 109 110 250 112 -3 114 115 116 117 118 119 120 121 122 123 124 125 126 127 128 129 130 131 132 133 134 135 136 137 138 139 140 141 142 143 144 145 146 147 148 149\n"

/-- A stat record whose command name contains embedded spaces and parentheses. -/
def exWeird : String :=
  "42 (weird (name) proc) R 201 202 203 204 205 206 207 208 209 210 211 212 213 214 215 216 217 218 219 220 221 222 223 224 225 226 227 228 229 230 231 232 233 234 235 236 237 238 239 240 241 242 243 244 245 246 247 248 249\n"

/-- A stat record with only 3 trailing fields. -/
def exShort : String := "1 (a) R 2 3\n"

/-- A stat record with exactly 50 trailing fields whose `ppid` field (field 1)
is not numeric. -/
def badStat : String :=
  "7 (bash) R abc 302 303 304 305 306 307 308 309 310 311 312 313 314 315 316 317 318 319 320 321 322 323 324 325 326 327 328 329 330 331 332 333 334 335 336 337 338 339 340 341 342 343 344 345 346 347 348 349\n"

/-- A well-formed stat record for pid 1 in the Sleeping state. -/
def exStatLive : String :=
  "1 (init) S 401 402 403 404 405 406 407 408 409 410 411 412 413 414 415 416 417 418 419 420 421 422 423 424 425 426 427 428 429 430 431 432 433 434 435 436 437 438 439 440 441 442 443 444 445 446 447 448 449\n"

/-- A procfs snapshot in which entry `1` is decodable, entry `self` is not a
pid, and entry `2` vanished between the directory listing and the read. -/
def exFS : ProcFS :=
  { entries := ["1", "self", "2"],
    meta := fun pid => if pid = 1 then some (0, 0) else none,
    stat := fun pid => if pid = 1 then some exStatLive else none }

/-- The statm record of the spec's overflow test case: its sixth value
`99999999999999999999` exceeds `u64::MAX`. -/
def statmOverflow : String := "10 5 2 1 0 99999999999999999999\n"

/-- A statm record whose sixth value is `u64::MAX`, so the page-size product
overflows 64 bits and is wrapped by `wrapping_mul`. -/
def statmWrap : String := "10 5 2 1 0 18446744073709551615\n"

/-- A `Process` value with the given identity pair and command name and all
other fields zeroed, for exercising `PartialEq`. -/
def procSample (pid : Int) (starttime : Nat) (comm : String) : Process :=
  { pid := pid, uid := 0, gid := 0, comm := comm, state := .Running,
    ppid := 0, pgrp := 0, session := 0, tty_nr := 0, tpgid := 0, flags := 0,
    minflt := 0, cminflt := 0, majflt := 0, cmajflt := 0, utime := 0,
    stime := 0, cutime := 0, cstime := 0, priority := 0, nice := 0,
    num_threads := 0, starttime := starttime, vsize := 0, rss := 0,
    rsslim := 0, startcode := 0, endcode := 0, startstack := 0, kstkesp := 0,
    kstkeip := 0, wchan := 0, exit_signal := 0, processor := 0,
    rt_priority := 0, policy := 0, delayacct_blkio_ticks := 0,
    guest_time := 0, cguest_time := 0, start_data := 0, end_data := 0,
    start_brk := 0, arg_start := 0, arg_end := 0, env_start := 0,
    env_end := 0, exit_code := 0 }

set_option maxRecDepth 100000

instance {ε α : Type} [DecidableEq ε] [DecidableEq α] : DecidableEq (Except ε α) :=
  fun x y =>
  match x, y with
  | .ok a, .ok b =>
    if h : a = b then isTrue (by rw [h])
    else isFalse (by intro hc; injection hc; contradiction)
  | .error a, .error b =>
    if h : a = b then isTrue (by rw [h])
    else isFalse (by intro hc; injection hc; contradiction)
  | .ok _, .error _ => isFalse (by intro hc; injection hc)
  | .error _, .ok _ => isFalse (by intro hc; injection hc)

theorem bindE_eq_ok {α β : Type} {e : Except PError α} {g : α → Except PError β}
    {b : β} : (e >>= g) = .ok b ↔ ∃ a, e = .ok a ∧ g a = .ok b := by
  cases e <;> simp [Bind.bind, Except.bind]

theorem optUnwrap_eq_ok {α : Type} {o : Option α} {a : α} :
    optUnwrap o = .ok a ↔ o = some a := by
  cases o <;> simp [optUnwrap]

theorem sliceE_eq_ok {l : List Char} {a b : Nat} {s : List Char} :
    sliceE l a b = .ok s ↔ (a ≤ b ∧ b ≤ l.length) ∧ s = (l.take b).drop a := by
  unfold sliceE
  by_cases h : a ≤ b ∧ b ≤ l.length <;> simp [h, eq_comm]

theorem parse_comm_eq_ok {s r : List Char} :
    parse_comm s = .ok r ↔ 1 ≤ s.length ∧ r = s.drop 1 := by
  unfold parse_comm
  by_cases h : 1 ≤ s.length <;> simp [h, eq_comm]

theorem statRaw_specCommand {stat : String} {pid : Int} {cmd : String}
    {f : List String} (hR : statRaw stat = .ok (pid, cmd, f)) :
    specCommand stat = some cmd := by
  unfold statRaw at hR
  simp only [bindE_eq_ok, Except.ok.injEq, Prod.mk.injEq] at hR
  obtain ⟨pid', hpid, rest, hrest, so, hso, eo, heo, slice, hslice, cmd', hcmd,
    after, hafter, hpid2, hcmd2, hf2⟩ := hR
  rw [optUnwrap_eq_ok] at hrest hso heo
  obtain ⟨⟨hle, hblen⟩, hsl⟩ := sliceE_eq_ok.mp hslice
  obtain ⟨hpos, hcm⟩ := parse_comm_eq_ok.mp hcmd
  unfold specCommand
  rw [hrest]
  simp only [hso, heo]
  have hslen : slice.length = eo - so := by
    rw [hsl]
    simp [List.length_drop, List.length_take, Nat.min_eq_left hblen]
  have hlt : so < eo := by omega
  rw [if_pos hlt]
  have hstep : ((rest.take eo).drop so).drop 1 = (rest.take eo).drop (so + 1) := by
    rw [List.drop_drop]
  rw [← hcmd2, hcm, hsl, hstep]

theorem statParts_ok {stat : String} {pid : Int} {cmd : String} {f : List String}
    (h : statParts stat = .ok (pid, cmd, f)) :
    statRaw stat = .ok (pid, cmd, f) ∧ f.length = 50 := by
  unfold statParts at h
  cases hR : statRaw stat with
  | error e => rw [hR] at h; simp at h
  | ok tri =>
    obtain ⟨pid', cmd', f'⟩ := tri
    rw [hR] at h
    by_cases h50 : f'.length = 50
    · simp only [h50, if_true, Except.ok.injEq, Prod.mk.injEq] at h
      obtain ⟨h1, h2, h3⟩ := h
      subst h1; subst h2; subst h3
      exact ⟨rfl, h50⟩
    · simp [h50] at h

theorem buildProcess_ok {tps page uid gid : Nat} {pid : Int} {cmd : String}
    {f : List String} {p : Process}
    (h : buildProcess tps page uid gid pid cmd f = .ok p) :
    statOk page f = true ∧ p = buildRecord tps page uid gid pid cmd f := by
  unfold buildProcess at h
  by_cases hok : statOk page f
  · rw [if_pos hok] at h
    simp only [Except.ok.injEq] at h
    exact ⟨hok, h.symm⟩
  · rw [if_neg hok] at h
    simp at h

theorem new_ok {tps page uid gid : Nat} {stat : String} {p : Process}
    (h : Process.new tps page uid gid stat = .ok p) :
    ∃ pid cmd f, statParts stat = .ok (pid, cmd, f) ∧
      buildProcess tps page uid gid pid cmd f = .ok p := by
  unfold Process.new at h
  cases hS : statParts stat with
  | error e => rw [hS] at h; simp at h
  | ok tri =>
    obtain ⟨pid, cmd, f⟩ := tri
    rw [hS] at h
    exact ⟨pid, cmd, f, rfl, h⟩

/-- C1: for every stat record that `Process::new` decodes successfully, the
decoded `comm` field is exactly the full text strictly between the first `(`
and the last `)` of the record's remainder after the pid — not truncated at
the first `)`. -/
theorem comm_full_text_between_parens {tps page uid gid : Nat} {stat : String}
    {p : Process} (hP : Process.new tps page uid gid stat = .ok p) :
    specCommand stat = some p.comm := by
  obtain ⟨pid, cmd, f, hS, hB⟩ := new_ok hP
  obtain ⟨hR, h50⟩ := statParts_ok hS
  obtain ⟨hok, hp⟩ := buildProcess_ok hB
  subst hp
  exact statRaw_specCommand hR

/-- Witness for C1 at a command name with embedded spaces and parentheses. -/
theorem comm_full_text_between_parens_witness :
    (Process.new 100 4096 0 0 exWeird).map Process.comm =
      .ok "weird (name) proc" := by
  cases hP : Process.new 100 4096 0 0 exWeird with
  | error e =>
    have hO : isOkE (Process.new 100 4096 0 0 exWeird) = true := by decide
    rw [hP] at hO
    simp [isOkE] at hO
  | ok p =>
    have h := comm_full_text_between_parens hP
    have hv : specCommand exWeird = some "weird (name) proc" := by decide
    rw [hv] at h
    simp only [Option.some.injEq] at h
    simp only [Except.map]
    rw [← h]

/-- C2: a stat record whose after-parenthesis remainder splits into any number
of fields other than 50 makes `Process::new` return the structural
unexpected-number-of-fields error, producing no `Process` value. -/
theorem stat_field_count_structural_error {stat : String} {pid : Int}
    {cmd : String} {f : List String} (hRaw : statRaw stat = .ok (pid, cmd, f))
    (hLen : f.length ≠ 50) (tps page uid gid : Nat) :
    Process.new tps page uid gid stat =
      .error (.other "Unexpected number of fields from /proc/[pid]/stat") := by
  have hS : statParts stat =
      .error (.other "Unexpected number of fields from /proc/[pid]/stat") := by
    unfold statParts
    rw [hRaw]
    simp [hLen]
  unfold Process.new
  rw [hS]

/-- Witness for C2 at a record with 3 trailing fields. -/
theorem stat_field_count_structural_error_witness :
    Process.new 100 4096 0 0 exShort =
      .error (.other "Unexpected number of fields from /proc/[pid]/stat") :=
  @stat_field_count_structural_error exShort 1 "a" ["R", "2", "3"]
    (by rfl) (by decide) 100 4096 0 0

/-- C3: every CPU-time field of a decoded Process equals the raw field value
divided by ticks-per-second, parsed as `u64` for utime, stime and guest_time
and as `i64` for cutime, cstime and cguest_time. -/
theorem timing_fields_are_ticks_div_tps {tps page uid gid : Nat}
    {stat : String} {p : Process}
    (hP : Process.new tps page uid gid stat = .ok p) :
    p.utime = ((parseUnsigned 64 (statField stat 11).toList).getD 0 : ℚ) / (tps : ℚ) ∧
    p.stime = ((parseUnsigned 64 (statField stat 12).toList).getD 0 : ℚ) / (tps : ℚ) ∧
    p.cutime = ((parseSigned 64 (statField stat 13).toList).getD 0 : ℚ) / (tps : ℚ) ∧
    p.cstime = ((parseSigned 64 (statField stat 14).toList).getD 0 : ℚ) / (tps : ℚ) ∧
    p.guest_time = ((parseUnsigned 64 (statField stat 40).toList).getD 0 : ℚ) / (tps : ℚ) ∧
    p.cguest_time = ((parseSigned 64 (statField stat 41).toList).getD 0 : ℚ) / (tps : ℚ) := by
  obtain ⟨pid, cmd, f, hS, hB⟩ := new_ok hP
  obtain ⟨hok, hp⟩ := buildProcess_ok hB
  subst hp
  have hsf : ∀ i, statField stat i = fld f i := by
    intro i
    unfold statField
    rw [hS]
  refine ⟨?_, ?_, ?_, ?_, ?_, ?_⟩ <;> rw [hsf] <;> rfl

/-- Witness for C3: ticks_per_second 100 and raw utime 250 give exactly 5/2
seconds; raw cutime -3 gives exactly -3/100 seconds. -/
theorem timing_fields_are_ticks_div_tps_witness :
    (Process.new 100 4096 0 0 exStat).map Process.utime = .ok ((5 : ℚ) / 2) ∧
    (Process.new 100 4096 0 0 exStat).map Process.cutime =
      .ok (-(3 : ℚ) / 100) := by
  cases hP : Process.new 100 4096 0 0 exStat with
  | error e =>
    have hO : isOkE (Process.new 100 4096 0 0 exStat) = true := by decide
    rw [hP] at hO
    simp [isOkE] at hO
  | ok p =>
    have h := timing_fields_are_ticks_div_tps hP
    have h11 : (parseUnsigned 64 (statField exStat 11).toList).getD 0 = 250 := by
      decide
    have h13 : (parseSigned 64 (statField exStat 13).toList).getD 0 = -3 := by
      decide
    constructor
    · simp only [Except.map, Except.ok.injEq]
      rw [h.1, h11]
      norm_num
    · simp only [Except.map, Except.ok.injEq]
      rw [h.2.2.1, h13]
      norm_num

/-- C4 counterexample: on the spec's statm record the sixth value
99999999999999999999 exceeds u64::MAX, so `parse().unwrap()` panics before
any multiplication is reached; no Memory value with a wrapped data field is
produced. -/
theorem statm_overflowing_sixth_field_panics :
    Memory.new 4096 statmOverflow =
      .error (.crash "called Option.unwrap on a None value") := by rfl

/-- C4 amended: with a sixth value that fits in u64 (here u64::MAX) the data
field is the 64-bit wrapped product of the sixth value and the page size —
not the full mathematical product — while positions 0-3 are scaled by the
page size without overflow. -/
theorem statm_data_wrapping_mul :
    Memory.new 4096 statmWrap =
      .ok { size := 40960, resident := 20480, share := 8192, text := 4096,
            data := 18446744073709547520 } ∧
    18446744073709547520 = u64wrappingMul 18446744073709551615 4096 ∧
    18446744073709551615 * 4096 ≠ 18446744073709547520 := by
  refine ⟨rfl, rfl, by decide⟩

/-- C5 (code-bug evidence): a 50-field record whose ppid field is non-numeric
passes the structural stage but makes the decoder panic through the
`from_str!` unwrap instead of returning a parse error naming the field. -/
theorem bad_field_panics_not_parse_error :
    isOkE (statParts badStat) = true ∧
    errOf (Process.new 100 4096 0 0 badStat) =
      some (.crash "called Result.unwrap on an Err value") := by
  exact ⟨by decide, by decide⟩

/-- C6: each of the nine recognized state characters decodes and re-encodes
to exactly itself, and every other character is rejected with the
invalid-state-character error. -/
theorem state_char_round_trip :
    (∀ c ∈ validStateChars,
      (State.from_char c).map State.to_string = .ok (String.mk [c])) ∧
    (∀ c : Char, c ∉ validStateChars →
      State.from_char c =
        .error (.other ("Invalid state character: " ++ String.mk [c]))) := by
  constructor
  · decide
  · intro c hc
    simp only [validStateChars, List.mem_cons, List.not_mem_nil, or_false,
      not_or] at hc
    obtain ⟨h1, h2, h3, h4, h5, h6, h7, h8, h9⟩ := hc
    simp [State.from_char, h1, h2, h3, h4, h5, h6, h7, h8, h9]

/-- Witness for C6 at the Waiting code and at an invalid character. -/
theorem state_char_round_trip_witness :
    (State.from_char 'D').map State.to_string = .ok (String.mk ['D']) ∧
    State.from_char 'Q' =
      .error (.other ("Invalid state character: " ++ String.mk ['Q'])) := by
  constructor
  · exact state_char_round_trip.1 'D' (by decide)
  · exact state_char_round_trip.2 'Q' (by decide)

/-- C7 (code-bug evidence): with entry 1 decodable and entry 2 vanished, the
enumeration panics through `Process::new(pid).unwrap()` instead of returning
the remaining decoded process, even though the vanished entry alone fails
with only the not-found error. -/
theorem all_aborts_when_one_entry_vanishes :
    errOf (all 100 4096 exFS) =
      some (.crash "called Result.unwrap on an Err value") ∧
    isOkE (Process.newFS 100 4096 exFS 1) = true ∧
    errOf (Process.newFS 100 4096 exFS 2) = some .notFound := by
  exact ⟨by decide, by decide, by decide⟩

/-- C8: an empty cmdline record gives the distinguished None, distinct from
an empty token list, and the record with two null-terminated tokens splits
into exactly those tokens. -/
theorem cmdline_empty_none_and_tokens :
    cmdline_vec "" = .ok none ∧
    cmdline_vec "foo\x00bar\x00" = .ok (some ["foo", "bar"]) ∧
    (none : Option (List String)) ≠ some ([] : List String) := by
  refine ⟨rfl, rfl, by simp⟩

/-- C9: `PartialEq` on Process holds iff pid and starttime both agree,
independent of every other field. -/
theorem process_eq_iff_pid_starttime (a b : Process) :
    Process.eq a b = true ↔ a.pid = b.pid ∧ a.starttime = b.starttime := by
  unfold Process.eq
  simp [Bool.and_eq_true, beq_iff_eq]

/-- Witness for C9: equal identity pair with different comm compares equal;
same pid with different starttime compares unequal. -/
theorem process_eq_iff_pid_starttime_witness :
    Process.eq (procSample 3 9 "a") (procSample 3 9 "b") = true ∧
    Process.eq (procSample 3 9 "a") (procSample 3 8 "a") = false := by
  constructor
  · exact (process_eq_iff_pid_starttime (procSample 3 9 "a")
      (procSample 3 9 "b")).mpr ⟨rfl, rfl⟩
  · rfl

/-- C10: for every non-empty string of any length a Rust allocation can
reach, `from_str` returns `from_char` of the first character, ignoring the
remaining characters (the bitwise-NOT guard never fires), and the empty
string is not handled by the guard: it panics on `nth(0).unwrap()`. -/
theorem from_str_takes_first_char :
    (∀ (c : Char) (cs : List Char), (c :: cs).length < 2 ^ 63 →
      State.from_str (String.mk (c :: cs)) = State.from_char c) ∧
    State.from_str "" =
      .error (.crash "called Option.unwrap on a None value") := by
  constructor
  · intro c cs hlen
    have e63 : (2 : Nat) ^ 63 = 9223372036854775808 := by norm_num
    rw [e63] at hlen
    simp only [List.length_cons] at hlen
    have e64 : (2 : Nat) ^ 64 = 18446744073709551616 := by norm_num
    have hguard : ¬(((2 ^ 64 : Nat) - 1) -
        (String.mk (c :: cs)).length % 2 ^ 64 = 1) := by
      have hL : (String.mk (c :: cs)).length = cs.length + 1 := rfl
      rw [hL, e64]
      have h1 : (cs.length + 1) % 18446744073709551616 = cs.length + 1 :=
        Nat.mod_eq_of_lt (by omega)
      rw [h1]
      omega
    unfold State.from_str
    rw [if_neg hguard]
    rfl
  · rfl

/-- Witness for C10: a two-character string is decoded via its first
character rather than rejected. -/
theorem from_str_takes_first_char_witness :
    State.from_str (String.mk ['R', 'x']) = .ok State.Running := by
  have h := from_str_takes_first_char.1 'R' ['x'] (by decide)
  rw [h]
  rfl
